import Mathlib

/-
  Verification development for the gp_regression repository.

  The repository is a pair of Jupyter notebooks (a spawning-salmon GP
  regression notebook and a coal-mining-disasters notebook).  The pure
  computations of the notebooks (the hard-coded disaster array, the
  `np.arange` year grid, the derived year index, the mean-function
  coefficient `(recruits/spawners).mean()`, the quadratic mean
  polynomial) are embedded as executable Lean functions, and the
  notebooks' statement structure (imports, file reads, model-building
  calls with their argument expressions, sampling calls, plotting) is
  embedded as lists of statements over a small expression language, so
  that structural properties (what is passed into the library, what is
  read from disk, what is mutated) can be stated and decided.
-/

namespace GPRegression

/-- The hard-coded UK coal-mining disaster counts of the disasters
notebook (`disasters_data = np.array([...])`), transcribed verbatim. -/
def disasters_data : List ℕ :=
  [4, 5, 4, 0, 1, 4, 3, 4, 0, 6, 3, 3, 4, 0, 2, 6,
   3, 3, 5, 4, 5, 3, 1, 4, 4, 1, 5, 5, 3, 4, 2, 5,
   2, 2, 3, 4, 2, 1, 3, 2, 2, 1, 1, 1, 1, 3, 0, 0,
   1, 0, 1, 1, 0, 0, 3, 1, 0, 3, 2, 2, 0, 1, 1, 1,
   0, 1, 0, 1, 0, 0, 0, 2, 1, 0, 0, 0, 1, 1, 0, 2,
   3, 3, 1, 1, 2, 1, 1, 1, 1, 2, 4, 2, 0, 0, 1, 4,
   0, 0, 0, 1, 0, 0, 0, 0, 0, 1, 0, 0, 1, 0, 1]

/-- `np.arange(a, b)` for naturals: the integers from `a` (inclusive)
to `b` (exclusive). -/
def arange (a b : ℕ) : List ℕ :=
  (List.range (b - a)).map (fun k => a + k)

/-- The disasters notebook's `year = np.arange(1851, 1962)`. -/
def year : List ℕ := arange 1851 1962

/-- `min` of a list of naturals as numpy's `.min()` computes it on a
nonempty array (`0` is returned for the empty array, which numpy
rejects; the notebook's array is nonempty). -/
def listMinD : List ℕ → ℕ
  | [] => 0
  | x :: xs => xs.foldl Nat.min x

/-- The disasters notebook's `year_ind = (year - year.min()).reshape(-1,1)`,
as the flat list of indices (the reshape to a column vector keeps the
entries and their count unchanged). -/
def year_ind : List ℕ := year.map (fun t => t - listMinD year)

/-- Expressions appearing as arguments in the notebooks' statements:
numeric literals, references to bound names, direct references to a
column of a loaded data frame, indexing, binary operators, function
calls of one to three arguments, and pairs. -/
inductive PExpr
  | num (n : ℕ)
  | var (s : String)
  | dataRef (df col : String)
  | index (e : PExpr) (i : ℕ)
  | binop (op : String) (a b : PExpr)
  | call1 (fn : String) (a : PExpr)
  | call2 (fn : String) (a b : PExpr)
  | call3 (fn : String) (a b c : PExpr)
  | tuple2 (a b : PExpr)
deriving DecidableEq

/-- The distribution constructors of the library that the notebooks
invoke, with their argument expressions. -/
inductive Dist
  | normal (mu sigma : PExpr)
  | halfNormal (sigma : PExpr)
  | halfCauchy (beta : PExpr)
  | exponential (lam : PExpr)
  | poisson (mu : PExpr)
deriving DecidableEq

/-- One statement of a notebook code cell.  Each constructor mirrors a
statement form that actually occurs in the source (plus `mutateStmt`
and `tryExceptBlock`, the forms whose absence the spec asserts). -/
inductive Stmt
  | importLib (lib : String)
  | suppressWarnings
  | readTable (target path : String) (whitespaceSep : Bool) (indexCol : ℕ)
  | assign (target : String) (e : PExpr)
  | assign2 (t1 t2 : String) (e : PExpr)
  | defineNatArray (target : String) (vals : List ℕ)
  | distDemo (target : String) (d : Dist)
  | freeRV (name : String) (d : Dist) (shape : Option ℕ)
  | observedRV (name : String) (d : Dist) (observed : PExpr)
  | deterministic (name : String) (e : PExpr)
  | gpMeanLinear (target : String) (coeffs : PExpr)
  | covExpQuad (target : String) (inputDim ls scale : PExpr)
  | gpMarginal (target meanFunc covFunc : String)
  | gpLatent (target covFunc : String)
  | marginalLikelihood (gp name : String) (X y noise : PExpr)
  | gpPriorDecl (gp name : String) (X : PExpr)
  | conditional (gp name : String) (X : PExpr) (predNoise : Bool)
  | sampleTrace (target : String) (draws tune : ℕ)
  | samplePPC (target varName : String) (samples : ℕ)
  | plotCall
  | mutateStmt (target : String)
  | tryExceptBlock
deriving DecidableEq

open PExpr Dist Stmt

/- ------------------------------------------------------------------
   The salmon notebook (spawning_salmon), cell by code cell.
   ------------------------------------------------------------------ -/

/-- Cell: imports and `warnings.simplefilter('ignore')`. -/
def salmonCellImports : List Stmt :=
  [importLib "numpy", importLib "pandas", importLib "pymc3",
   importLib "arviz", importLib "matplotlib.pyplot",
   importLib "warnings", suppressWarnings]

/-- Cell: `salmon_data = pd.read_table('../data/salmon.txt', sep='\s+',
index_col=0)` followed by a scatter plot. -/
def salmonCellLoad : List Stmt :=
  [readTable "salmon_data" "../data/salmon.txt" true 0, plotCall]

/-- Cell: `a_normal_distribution = pm.Normal.dist(mu=0, sigma=50)` and
a histogram of draws from it. -/
def salmonCellNormalDemo : List Stmt :=
  [distDemo "a_normal_distribution" (normal (num 0) (num 50)), plotCall]

/-- Cell: `a_half_normal_distribution = pm.HalfNormal.dist(sigma=50)`
and a histogram of draws from it. -/
def salmonCellHalfNormalDemo : List Stmt :=
  [distDemo "a_half_normal_distribution" (halfNormal (num 50)), plotCall]

/-- Cell: `x, y = salmon_data[['spawners', 'recruits']].values.T`. -/
def salmonCellExtractXY : List Stmt :=
  [assign2 "x" "y"
    (tuple2 (dataRef "salmon_data" "spawners")
            (dataRef "salmon_data" "recruits"))]

/-- Cell: the linear model `linear_salmon_model`. -/
def salmonCellLinearModel : List Stmt :=
  [freeRV "β" (normal (num 0) (num 50)) (some 2),
   freeRV "σ" (halfNormal (num 50)) none,
   assign "μ" (binop "+" (index (var "β") 0)
                         (binop "*" (index (var "β") 1) (var "x"))),
   observedRV "recruits" (normal (var "μ") (var "σ")) (var "y")]

/-- Cell: `linear_trace = pm.sample(1000, tune=2000, cores=2)`. -/
def salmonCellLinearSample : List Stmt :=
  [sampleTrace "linear_trace" 1000 2000]

/-- Cell: `az.plot_trace(linear_trace)`. -/
def salmonCellLinearTracePlot : List Stmt := [plotCall]

/-- Cell: `X_pred = np.linspace(0, 500, 100)` and posterior
regression-line plotting. -/
def salmonCellLinearLines : List Stmt :=
  [assign "X_pred" (call3 "np.linspace" (num 0) (num 500) (num 100)),
   plotCall]

/-- Cell: the quadratic model `quad_salmon_model`. -/
def salmonCellQuadModel : List Stmt :=
  [freeRV "β" (normal (num 0) (num 50)) (some 3),
   freeRV "σ" (halfNormal (num 50)) none,
   assign "μ" (binop "+"
     (binop "+" (index (var "β") 0)
                (binop "*" (index (var "β") 1) (var "x")))
     (binop "*" (index (var "β") 2) (binop "**" (var "x") (num 2)))),
   observedRV "recruits" (normal (var "μ") (var "σ")) (var "y")]

/-- Cell: `quad_trace = pm.sample(1000, tune=2000, cores=2,
random_seed=1)`. -/
def salmonCellQuadSample : List Stmt :=
  [sampleTrace "quad_trace" 1000 2000]

/-- Cell: posterior quadratic-line plotting. -/
def salmonCellQuadLines : List Stmt := [plotCall]

/-- Cell: the Gaussian-process model `gp_salmon_model`. -/
def salmonCellGPModel : List Stmt :=
  [freeRV "ρ" (halfCauchy (num 5)) none,
   freeRV "η" (halfCauchy (num 5)) none,
   gpMeanLinear "M"
     (call1 "mean" (binop "/" (dataRef "salmon_data" "recruits")
                              (dataRef "salmon_data" "spawners"))),
   covExpQuad "K" (num 1) (var "ρ") (binop "**" (var "η") (num 2)),
   freeRV "σ" (halfNormal (num 50)) none,
   gpMarginal "recruit_gp" "M" "K",
   marginalLikelihood "recruit_gp" "recruits"
     (call1 "reshape" (call1 "values" (dataRef "salmon_data" "spawners")))
     (call1 "values" (dataRef "salmon_data" "recruits"))
     (var "σ")]

/-- Cell: `gp_trace = pm.sample(1000, tune=2000, cores=2,
random_seed=42)`. -/
def salmonCellGPSample : List Stmt :=
  [sampleTrace "gp_trace" 1000 2000]

/-- Cell: `az.plot_trace(gp_trace, var_names=['ρ', 'η', 'σ'])`. -/
def salmonCellGPTracePlot : List Stmt := [plotCall]

/-- Cell: the `salmon_pred` conditional and a 3-sample posterior
predictive call. -/
def salmonCellGPConditional3 : List Stmt :=
  [conditional "recruit_gp" "salmon_pred" (call1 "reshape" (var "X_pred")) false,
   samplePPC "gp_salmon_samples" "salmon_pred" 3]

/-- Cell: plot of the three posterior draws. -/
def salmonCellGPPlotSamples : List Stmt := [plotCall]

/-- Cell: a 100-sample posterior predictive call for `salmon_pred`. -/
def salmonCellGPSample100 : List Stmt :=
  [samplePPC "gp_salmon_samples" "salmon_pred" 100]

/-- Cell: `plot_gp_dist` figure of the 100 samples. -/
def salmonCellGPDistPlot : List Stmt :=
  [importLib "pymc3.gp.util", plotCall]

/-- Cell: the `salmon_pred_noise` conditional (with `pred_noise=True`)
and a 500-sample posterior predictive call. -/
def salmonCellGPNoise500 : List Stmt :=
  [conditional "recruit_gp" "salmon_pred_noise" (call1 "reshape" (var "X_pred")) true,
   samplePPC "gp_salmon_samples" "salmon_pred_noise" 500]

/-- Cell: `plot_gp_dist` figure of the noisy samples. -/
def salmonCellGPNoisePlot : List Stmt :=
  [importLib "pymc3.gp.util", plotCall]

/-- Cell: the empty exercise cell (`# Write answer here`). -/
def salmonCellExercise : List Stmt := []

/-- The salmon notebook as the sequence of its code cells. -/
def salmonNotebook : List (List Stmt) :=
  [salmonCellImports, salmonCellLoad, salmonCellNormalDemo,
   salmonCellHalfNormalDemo, salmonCellExtractXY, salmonCellLinearModel,
   salmonCellLinearSample, salmonCellLinearTracePlot,
   salmonCellLinearLines, salmonCellQuadModel, salmonCellQuadSample,
   salmonCellQuadLines, salmonCellGPModel, salmonCellGPSample,
   salmonCellGPTracePlot, salmonCellGPConditional3,
   salmonCellGPPlotSamples, salmonCellGPSample100, salmonCellGPDistPlot,
   salmonCellGPNoise500, salmonCellGPNoisePlot, salmonCellExercise]

/- ------------------------------------------------------------------
   The coal-mining-disasters notebook, cell by code cell.
   ------------------------------------------------------------------ -/

/-- Cell: imports, the `cov = pm.gp.cov` alias, seaborn context, and
`warnings.simplefilter('ignore')`. -/
def disastersCellImports : List Stmt :=
  [importLib "pandas", importLib "numpy", importLib "numpy.ma",
   importLib "arviz", importLib "pymc3",
   assign "cov" (var "pm.gp.cov"),
   importLib "datetime", importLib "matplotlib.pyplot",
   importLib "seaborn", plotCall, importLib "warnings",
   suppressWarnings]

/-- Cell: the hard-coded `disasters_data` array, `year`, and
`year_ind`. -/
def disastersCellData : List Stmt :=
  [defineNatArray "disasters_data" disasters_data,
   assign "year" (call2 "np.arange" (num 1851) (num 1962)),
   assign "year_ind"
     (call1 "reshape" (binop "-" (var "year") (call1 "min" (var "year"))))]

/-- Cell: bar plot of the disaster counts. -/
def disastersCellBarPlot : List Stmt := [plotCall]

/-- Cell: the priors `ρ, η ~ Exponential(1)`, the scaled
exponentiated-quadratic covariance and the latent GP. -/
def disastersCellModelCov : List Stmt :=
  [freeRV "ρ" (exponential (num 1)) none,
   freeRV "η" (exponential (num 1)) none,
   covExpQuad "K" (num 1) (var "ρ") (binop "**" (var "η") (num 2)),
   gpLatent "gp" "K"]

/-- Cell: `f = gp.prior('f', X=year_ind)`. -/
def disastersCellGPPrior : List Stmt :=
  [gpPriorDecl "gp" "f" (var "year_ind")]

/-- Cell: `λ = pm.Deterministic('λ', pm.math.exp(f))` and the Poisson
likelihood `confirmation = pm.Poisson('confirmation', λ,
observed=disasters_data)`. -/
def disastersCellLikelihood : List Stmt :=
  [deterministic "λ" (call1 "pm.math.exp" (var "f")),
   observedRV "confirmation" (poisson (var "λ")) (var "disasters_data")]

/-- Cell: `trace = pm.sample(1000, tune=1000, chains=2)`. -/
def disastersCellSample : List Stmt :=
  [sampleTrace "trace" 1000 1000]

/-- Cell: `az.plot_posterior(trace, var_names=['ρ', 'η'])`. -/
def disastersCellPosteriorPlot : List Stmt := [plotCall]

/-- Cell: `years = (year - year.min())`. -/
def disastersCellYears : List Stmt :=
  [assign "years" (binop "-" (var "year") (call1 "min" (var "year")))]

/-- Cell: `y_pred = pm.sample_posterior_predictive(trace, vars=[f],
samples=1000)`. -/
def disastersCellPPC : List Stmt :=
  [samplePPC "y_pred" "f" 1000]

/-- Cell: the final `plot_gp_dist` figure. -/
def disastersCellFinalPlot : List Stmt := [plotCall]

/-- The disasters notebook as the sequence of its code cells. -/
def disastersNotebook : List (List Stmt) :=
  [disastersCellImports, disastersCellData, disastersCellBarPlot,
   disastersCellModelCov, disastersCellGPPrior,
   disastersCellLikelihood, disastersCellSample,
   disastersCellPosteriorPlot, disastersCellYears, disastersCellPPC,
   disastersCellFinalPlot]

/- ------------------------------------------------------------------
   Analysis functions over the embedding.
   ------------------------------------------------------------------ -/

/-- The names bound directly to the loaded or hard-coded observed data
arrays: `x` and `y` are the spawner and recruit columns extracted from
`salmon_data`, and `disasters_data` is the hard-coded count array. -/
def dataVars : List String := ["x", "y", "disasters_data"]

/-- Whether an expression mentions the loaded (or hard-coded) data,
directly through a data-frame column or through one of the names of
`dataVars`. -/
def mentionsData : PExpr → Bool
  | num _ => false
  | var s => dataVars.contains s
  | dataRef _ _ => true
  | index e _ => mentionsData e
  | binop _ a b => mentionsData a || mentionsData b
  | call1 _ a => mentionsData a
  | call2 _ a b => mentionsData a || mentionsData b
  | call3 _ a b c => mentionsData a || mentionsData b || mentionsData c
  | tuple2 a b => mentionsData a || mentionsData b

/-- Whether an expression is a direct pass-through of an observed data
array: a data-frame column, a name of `dataVars`, or such an array
wrapped only in `.values` / `.reshape`. -/
def isPassThroughData : PExpr → Bool
  | var s => dataVars.contains s
  | dataRef _ _ => true
  | call1 fn a =>
      (fn == "values" || fn == "reshape") && isPassThroughData a
  | _ => false

/-- Names of model random variables and of expressions built from them
(the deterministic `μ` and `λ` included): the symbolic part of the
model specification. -/
def rvNames : List String := ["β", "σ", "ρ", "η", "f", "λ", "μ"]

/-- Whether an expression refers to a model random variable (so that it
is a symbolic model expression rather than a concrete value the
notebook supplies). -/
def isRVExpr : PExpr → Bool
  | num _ => false
  | var s => rvNames.contains s
  | dataRef _ _ => false
  | index e _ => isRVExpr e
  | binop _ a b => isRVExpr a || isRVExpr b
  | call1 _ a => isRVExpr a
  | call2 _ a b => isRVExpr a || isRVExpr b
  | call3 _ a b c => isRVExpr a || isRVExpr b || isRVExpr c
  | tuple2 a b => isRVExpr a || isRVExpr b

/-- The argument expressions of a distribution constructor. -/
def distArgs : Dist → List PExpr
  | normal mu sigma => [mu, sigma]
  | halfNormal sigma => [sigma]
  | halfCauchy beta => [beta]
  | exponential lam => [lam]
  | poisson mu => [mu]

/-- The expressions a statement passes into the library's
model-building routines (distribution constructors, GP mean and
covariance constructors, the marginal likelihood, GP priors and
conditionals, deterministic nodes). -/
def stmtModelArgs : Stmt → List PExpr
  | distDemo _ d => distArgs d
  | freeRV _ d _ => distArgs d
  | observedRV _ d obs => distArgs d ++ [obs]
  | deterministic _ e => [e]
  | gpMeanLinear _ coeffs => [coeffs]
  | covExpQuad _ inputDim ls scale => [inputDim, ls, scale]
  | marginalLikelihood _ _ X y noise => [X, y, noise]
  | gpPriorDecl _ _ X => [X]
  | conditional _ _ X _ => [X]
  | _ => []

/-- All expressions a notebook passes into model-building routines. -/
def modelArgValues (nb : List (List Stmt)) : List PExpr :=
  (nb.flatten).flatMap stmtModelArgs

/-- A model input is in the shape the spec describes when it is a
symbolic model expression, a direct pass-through of an observed data
array, or mentions no loaded data at all; the spec's claim is that the
last two cases exhaust the concrete inputs (`no model input is computed
from the loaded data`). -/
def goodModelArg (e : PExpr) : Bool :=
  isRVExpr e || isPassThroughData e || !(mentionsData e)

/-- The `coeffs` argument of `pm.gp.mean.Linear` in the salmon GP
model: `(salmon_data.recruits / salmon_data.spawners).mean()`. -/
def gpMeanCoeffsExpr : PExpr :=
  call1 "mean" (binop "/" (dataRef "salmon_data" "recruits")
                          (dataRef "salmon_data" "spawners"))

/-- The file reads of a notebook: (bound name, path, whether the
separator is the whitespace regex). -/
def fileReads (nb : List (List Stmt)) : List (String × String × Bool) :=
  (nb.flatten).flatMap fun s =>
    match s with
    | readTable target path ws _ => [(target, path, ws)]
    | _ => []

/-- The posterior-predictive sampling calls of a notebook:
(bound name, sampled variable, requested sample count). -/
def ppcCalls (nb : List (List Stmt)) : List (String × String × ℕ) :=
  (nb.flatten).flatMap fun s =>
    match s with
    | samplePPC target v n => [(target, v, n)]
    | _ => []

/-- The names a statement binds. -/
def definedNames : Stmt → List String
  | importLib _ => []
  | suppressWarnings => []
  | readTable target _ _ _ => [target]
  | assign target _ => [target]
  | assign2 t1 t2 _ => [t1, t2]
  | defineNatArray target _ => [target]
  | distDemo target _ => [target]
  | freeRV name _ _ => [name]
  | observedRV name _ _ => [name]
  | deterministic name _ => [name]
  | gpMeanLinear target _ => [target]
  | covExpQuad target _ _ _ => [target]
  | gpMarginal target _ _ => [target]
  | gpLatent target _ => [target]
  | marginalLikelihood _ _ _ _ _ => []
  | gpPriorDecl _ name _ => [name]
  | conditional _ name _ _ => [name]
  | sampleTrace target _ _ => [target]
  | samplePPC target _ _ => [target]
  | plotCall => []
  | mutateStmt _ => []
  | tryExceptBlock => []

/-- How many statements of a notebook bind the given name. -/
def definedCount (name : String) (nb : List (List Stmt)) : ℕ :=
  ((nb.flatten).filter fun s => (definedNames s).contains name).length

/-- How many statements of a notebook mutate the given name in
place. -/
def mutatedCount (name : String) (nb : List (List Stmt)) : ℕ :=
  ((nb.flatten).filter fun s =>
    match s with
    | mutateStmt target => target == name
    | _ => false).length

/-- Whether a statement is the global warning suppression
`warnings.simplefilter('ignore')`. -/
def isSuppressWarnings : Stmt → Bool
  | suppressWarnings => true
  | _ => false

/-- How many statements of a notebook are try/except blocks. -/
def tryExceptCount (nb : List (List Stmt)) : ℕ :=
  ((nb.flatten).filter fun s =>
    match s with
    | tryExceptBlock => true
    | _ => false).length

/-- The observed random variables of a notebook:
(name, distribution, observed-data expression). -/
def observedRVs (nb : List (List Stmt)) : List (String × Dist × PExpr) :=
  (nb.flatten).flatMap fun s =>
    match s with
    | observedRV name d obs => [(name, d, obs)]
    | _ => []

/-- The deterministic nodes of a notebook: (name, expression). -/
def deterministicDefs (nb : List (List Stmt)) : List (String × PExpr) :=
  (nb.flatten).flatMap fun s =>
    match s with
    | deterministic name e => [(name, e)]
    | _ => []

/-- The GP prior declarations of a notebook:
(gp object, bound name, input expression). -/
def gpPriorDecls (nb : List (List Stmt)) : List (String × String × PExpr) :=
  (nb.flatten).flatMap fun s =>
    match s with
    | gpPriorDecl gp name X => [(gp, name, X)]
    | _ => []

/- ------------------------------------------------------------------
   Numeric model of the GP mean coefficient (salmon GP model).
   ------------------------------------------------------------------ -/

/-- The elementwise quotient `recruits / spawners`; `none` when a
divisor is zero (the division is undefined there) or the lengths
disagree. -/
def elementwiseQuot : List ℚ → List ℚ → Option (List ℚ)
  | [], [] => some []
  | r :: rs, s :: ss =>
      if s = 0 then none
      else (elementwiseQuot rs ss).map (fun l => r / s :: l)
  | _, _ => none

/-- The mean of a list of rationals; `none` on the empty list. -/
def qmean (l : List ℚ) : Option ℚ :=
  if l = [] then none else some (l.sum / l.length)

/-- The coefficient passed to `pm.gp.mean.Linear` in the salmon GP
model: `(salmon_data.recruits / salmon_data.spawners).mean()`, with
the columns given as lists. -/
def meanLinearCoeff (spawners recruits : List ℚ) : Option ℚ :=
  (elementwiseQuot recruits spawners).bind qmean

/- ------------------------------------------------------------------
   Numeric model of the quadratic mean (quad_salmon_model).
   ------------------------------------------------------------------ -/

/-- The quadratic model's mean line transcribed from the source:
`μ = β[0] + β[1] * x + β[2] * x**2`. -/
def quadMu (β : Fin 3 → ℚ) (x : ℚ) : ℚ :=
  β 0 + β 1 * x + β 2 * x ^ 2

/-- Stated from the spec's words: the degree-2 polynomial
`μ(x) = c0 + c1·x + c2·x²`, for comparison with `quadMu`. -/
def degree2PolySpec (c0 c1 c2 x : ℚ) : ℚ :=
  c0 + c1 * x + c2 * x ^ 2

/- ------------------------------------------------------------------
   Posterior predictive sampler contract.
   ------------------------------------------------------------------ -/

/-- Modelled from the spec: `pm.sample_posterior_predictive` is
external library code not part of this repository; per the spec,
posterior sample arrays have the requested sample count, so the call
is modelled as returning, for a variable of output dimension `d`, a
`samples × d` array. -/
def samplePosteriorPredictive (samples d : ℕ) : List (List ℚ) :=
  List.replicate samples (List.replicate d 0)

/-- Modelled from the spec: the data file `../data/salmon.txt` is not
in the repository; per the spec it is a two-column whitespace-separated
table of paired spawner and recruit counts. -/
def salmonFileColumns : List String := ["spawners", "recruits"]

/-- The free (prior) random variables of a notebook:
(name, distribution, shape argument). -/
def freeRVsOf (nb : List (List Stmt)) : List (String × Dist × Option ℕ) :=
  (nb.flatten).flatMap fun s =>
    match s with
    | freeRV name d sh => [(name, d, sh)]
    | _ => []

/-- The plain assignments of a notebook: (name, expression). -/
def assignsOf (nb : List (List Stmt)) : List (String × PExpr) :=
  (nb.flatten).flatMap fun s =>
    match s with
    | assign target e => [(target, e)]
    | _ => []

/-- The `pm.gp.mean.Linear` constructions of a notebook:
(bound name, coeffs argument). -/
def gpMeanLinearCoeffs (nb : List (List Stmt)) : List (String × PExpr) :=
  (nb.flatten).flatMap fun s =>
    match s with
    | gpMeanLinear target coeffs => [(target, coeffs)]
    | _ => []

/-- How many statements of a notebook mutate any object in place. -/
def mutationCount (nb : List (List Stmt)) : ℕ :=
  ((nb.flatten).filter fun s =>
    match s with
    | mutateStmt _ => true
    | _ => false).length

/-- The expression assigned to `μ` in the quadratic model:
`β[0] + β[1] * x + β[2] * x**2`. -/
def quadMuExpr : PExpr :=
  binop "+"
    (binop "+" (index (var "β") 0)
               (binop "*" (index (var "β") 1) (var "x")))
    (binop "*" (index (var "β") 2) (binop "**" (var "x") (num 2)))

/- ==================================================================
   Theorems.
   ================================================================== -/

/-- Claim C1: the disaster-count array defined in the coal-mining
notebook has length 111, and this length equals the length of the year
array it is paired with; the observed data of the notebook's Poisson
likelihood is exactly that disaster array, sitting over the GP whose
input is the year-derived index. -/
theorem disasters_data_length_pairing :
    disasters_data.length = 111 ∧
    year.length = disasters_data.length ∧
    observedRVs disastersNotebook =
      [("confirmation", poisson (var "λ"), var "disasters_data")] ∧
    gpPriorDecls disastersNotebook = [("gp", "f", var "year_ind")] :=
  ⟨rfl, rfl, rfl, rfl⟩

set_option maxRecDepth 8000 in
/-- Claim C10: the year array contains exactly the consecutive years
1851 through 1961 inclusive (the `arange` endpoint 1962 is excluded),
and the derived year-index column contains the consecutive integers 0
through 110, of the same length (111) as the disaster-count array. -/
theorem year_array_consecutive :
    year = (List.range 111).map (fun k => 1851 + k) ∧
    year.head? = some 1851 ∧
    year.getLast? = some 1961 ∧
    year.contains 1962 = false ∧
    year_ind = List.range 111 ∧
    year_ind.length = disasters_data.length :=
  ⟨rfl, rfl, rfl, rfl, rfl, rfl⟩

/-- Claim C2: the posterior predictive sampler is called with requested
sample counts 3, 100 and 500 in the salmon notebook (for `salmon_pred`
twice and `salmon_pred_noise`) and 1000 in the disasters notebook (for
`f`), and each call returns an array whose first dimension is the
requested count (sampler contract modelled from the spec). -/
theorem posterior_predictive_sample_counts :
    ppcCalls salmonNotebook =
      [("gp_salmon_samples", "salmon_pred", 3),
       ("gp_salmon_samples", "salmon_pred", 100),
       ("gp_salmon_samples", "salmon_pred_noise", 500)] ∧
    ppcCalls disastersNotebook = [("y_pred", "f", 1000)] ∧
    ∀ n d : ℕ, (samplePosteriorPredictive n d).length = n :=
  ⟨rfl, rfl, fun n d => by simp [samplePosteriorPredictive]⟩

/-- Claim C3, counterexample: the `coeffs` argument the salmon notebook
passes to `pm.gp.mean.Linear` is `(salmon_data.recruits /
salmon_data.spawners).mean()` — a model input computed from the loaded
data that is neither an observed-data pass-through nor a fixed numeric
constant, so not every model input satisfies the claim. -/
theorem model_inputs_constant_counterexample :
    gpMeanCoeffsExpr ∈ modelArgValues salmonNotebook ∧
    goodModelArg gpMeanCoeffsExpr = false ∧
    (modelArgValues salmonNotebook).all goodModelArg = false :=
  ⟨by decide, rfl, rfl⟩

/-- Claim C3, amended: every value the notebooks pass into the
library's model-building routines is a symbolic model expression, a
direct pass-through of an observed data array, or mentions no loaded
data — except the single `coeffs` argument of `pm.gp.mean.Linear`,
which is computed from the loaded data as the mean of
`recruits/spawners`. -/
theorem model_inputs_constant_amended :
    (modelArgValues salmonNotebook).filter (fun e => !goodModelArg e) =
      [gpMeanCoeffsExpr] ∧
    (modelArgValues disastersNotebook).all goodModelArg = true :=
  ⟨rfl, rfl⟩

/-- Claim C4: across both notebooks there is exactly one file read — a
whitespace-separated table read into `salmon_data` from
`../data/salmon.txt`, placed in the cell immediately after the salmon
notebook's import cell; the file's columns (modelled from the spec, the
file itself being absent from the repository) are the two paired
spawner and recruit columns. -/
theorem single_file_read :
    fileReads salmonNotebook = [("salmon_data", "../data/salmon.txt", true)] ∧
    fileReads disastersNotebook = [] ∧
    fileReads [salmonCellImports] = [] ∧
    salmonNotebook.take 2 = [salmonCellImports, salmonCellLoad] ∧
    readTable "salmon_data" "../data/salmon.txt" true 0 ∈ salmonCellLoad ∧
    salmonFileColumns = ["spawners", "recruits"] ∧
    salmonFileColumns.length = 2 :=
  ⟨rfl, rfl, rfl, rfl, by decide, rfl, rfl⟩

/-- Claim C5: the disasters notebook's count model is a Poisson
likelihood with a log-link — the observed disaster counts are the
observed data of a Poisson whose rate `λ` is declared as the
elementwise exponential of the latent GP function `f`. -/
theorem poisson_log_link :
    observedRVs disastersNotebook =
      [("confirmation", poisson (var "λ"), var "disasters_data")] ∧
    deterministicDefs disastersNotebook =
      [("λ", call1 "pm.math.exp" (var "f"))] ∧
    gpPriorDecls disastersNotebook = [("gp", "f", var "year_ind")] :=
  ⟨rfl, rfl, rfl⟩

/-- Claim C6: the quadratic model of the salmon notebook has exactly
two prior declarations — a coefficient vector `β` of exactly three
Normal(0, 50) components and a HalfNormal(50) noise scale `σ` — and its
mean is `β[0] + β[1]·x + β[2]·x²`, which agrees with the spec's
degree-2 polynomial. -/
theorem quad_model_structure :
    freeRVsOf [salmonCellQuadModel] =
      [("β", normal (num 0) (num 50), some 3),
       ("σ", halfNormal (num 50), none)] ∧
    assignsOf [salmonCellQuadModel] = [("μ", quadMuExpr)] ∧
    observedRVs [salmonCellQuadModel] =
      [("recruits", normal (var "μ") (var "σ"), var "y")] ∧
    salmonCellQuadModel ∈ salmonNotebook ∧
    ∀ (β : Fin 3 → ℚ) (x : ℚ),
      quadMu β x = degree2PolySpec (β 0) (β 1) (β 2) x :=
  ⟨rfl, rfl, rfl, by decide, fun β x => rfl⟩

/-- Claim C7: each dataset is bound exactly once (the salmon table by
the file read, the disaster array by its hard-coded definition), is
never rebound, never bound in the other notebook, and no statement of
either notebook mutates any object in place. -/
theorem datasets_immutable :
    definedCount "salmon_data" salmonNotebook = 1 ∧
    mutatedCount "salmon_data" salmonNotebook = 0 ∧
    definedCount "disasters_data" disastersNotebook = 1 ∧
    mutatedCount "disasters_data" disastersNotebook = 0 ∧
    definedCount "salmon_data" disastersNotebook = 0 ∧
    definedCount "disasters_data" salmonNotebook = 0 ∧
    mutationCount salmonNotebook = 0 ∧
    mutationCount disastersNotebook = 0 :=
  ⟨rfl, rfl, rfl, rfl, rfl, rfl, rfl, rfl⟩

/-- Claim C8: each notebook's first code cell contains the global
warning suppression `warnings.simplefilter('ignore')`, and no statement
of either notebook is a try/except (no error is caught, retried or
otherwise handled). -/
theorem warnings_suppressed_no_error_handling :
    salmonNotebook.head? = some salmonCellImports ∧
    salmonCellImports.any isSuppressWarnings = true ∧
    disastersNotebook.head? = some disastersCellImports ∧
    disastersCellImports.any isSuppressWarnings = true ∧
    tryExceptCount salmonNotebook = 0 ∧
    tryExceptCount disastersNotebook = 0 :=
  ⟨rfl, rfl, rfl, rfl, rfl, rfl⟩

/-- Helper: the elementwise quotient is undefined (`none`) as soon as
some divisor is zero. -/
theorem elementwiseQuot_zero (recruits spawners : List ℚ)
    (h : (0:ℚ) ∈ spawners) :
    elementwiseQuot recruits spawners = none := by
  induction recruits generalizing spawners with
  | nil =>
    cases spawners with
    | nil => simp at h
    | cons s ss => rfl
  | cons r rs ih =>
    cases spawners with
    | nil => simp at h
    | cons s ss =>
      simp only [elementwiseQuot]
      rcases List.mem_cons.mp h with h0 | h0
      · rw [if_pos h0.symm]
      · by_cases hs : s = 0
        · rw [if_pos hs]
        · rw [if_neg hs, ih ss h0]
          rfl

/-- Helper: over equal-length lists with all divisors nonzero, the
elementwise quotient is defined and preserves length. -/
theorem elementwiseQuot_some (recruits spawners : List ℚ)
    (hlen : recruits.length = spawners.length)
    (hnz : ∀ s ∈ spawners, s ≠ 0) :
    ∃ l, elementwiseQuot recruits spawners = some l ∧
      l.length = recruits.length := by
  induction recruits generalizing spawners with
  | nil =>
    cases spawners with
    | nil => exact ⟨[], rfl, rfl⟩
    | cons s ss => simp at hlen
  | cons r rs ih =>
    cases spawners with
    | nil => simp at hlen
    | cons s ss =>
      have hs : s ≠ 0 := hnz s (List.mem_cons_self s ss)
      have hss : ∀ t ∈ ss, t ≠ 0 := fun t ht => hnz t (List.mem_cons_of_mem s ht)
      have hl : rs.length = ss.length := by simpa using hlen
      obtain ⟨l, hl1, hl2⟩ := ih ss hl hss
      refine ⟨r / s :: l, ?_, by simp [hl2]⟩
      simp [elementwiseQuot, if_neg hs, hl1]

/-- Claim C9: the salmon GP model's mean-function coefficient is the
mean of the elementwise quotient `recruits/spawners` with no guard
against a zero spawner value — the computation yields `none` whenever
some spawner value is zero, and is defined whenever the (nonempty,
equal-length) spawner column is everywhere nonzero. -/
theorem gp_mean_coeff_zero_spawner (spawners recruits : List ℚ)
    (hlen : recruits.length = spawners.length) :
    gpMeanLinearCoeffs salmonNotebook = [("M", gpMeanCoeffsExpr)] ∧
    ((0:ℚ) ∈ spawners → meanLinearCoeff spawners recruits = none) ∧
    (spawners ≠ [] → (∀ s ∈ spawners, s ≠ 0) →
      (meanLinearCoeff spawners recruits).isSome = true) := by
  refine ⟨rfl, ?_, ?_⟩
  · intro h0
    unfold meanLinearCoeff
    rw [elementwiseQuot_zero recruits spawners h0]
    rfl
  · intro hne hnz
    obtain ⟨l, h1, h2⟩ := elementwiseQuot_some recruits spawners hlen hnz
    have hnel : l ≠ [] := by
      intro he
      apply hne
      have : spawners.length = 0 := by
        rw [← hlen, ← h2, he]
        rfl
      exact List.length_eq_zero.mp this
    unfold meanLinearCoeff
    rw [h1]
    simp [qmean, hnel]

/-- Witness for claim C9: at spawner column `[0, 2]` the coefficient is
undefined, and at the everywhere-nonzero column `[2, 4]` it is
defined. -/
theorem gp_mean_coeff_zero_spawner_witness :
    meanLinearCoeff [0, 2] [3, 4] = none ∧
    (meanLinearCoeff [2, 4] [3, 4]).isSome = true := by
  constructor
  · exact (gp_mean_coeff_zero_spawner [0, 2] [3, 4] (by decide)).2.1 (by decide)
  · exact (gp_mean_coeff_zero_spawner [2, 4] [3, 4] (by decide)).2.2
      (by decide) (by decide)

end GPRegression
